import Mathlib

/-!
Verification of `src/emprestimo.py` (class `Emprestimo`, a loan installment
schedule calculator).

Modelling conventions:
* Python floats are modelled as exact rationals (`ℚ`); the spec's tolerance
  clauses become exact equalities.
* Calendar dates are triples (year, month, day) of naturals.
* `dateutil.relativedelta(months=1)` (an external library) is modelled by
  `addOneMonth`: advance the month, wrapping the year, and clamp the day to
  the target month's length.
* `datetime.strptime(s, "%d/%m/%Y")` is modelled by `validar_data_inicial`:
  the string must be day/month/year separated by slashes, day and month one
  or two digits in range, year exactly four digits, and the resulting date
  must be a real calendar date with year at least 1 (CPython rejects year 0
  and out-of-range days, and its `%Y` regex is exactly four digits).
* `datetime.strftime("%d/%m/%Y")` zero-pads day and month to two digits and
  prints the year unpadded (glibc behaviour; all relevant years have four
  digits anyway).
* Python exceptions are modelled by `Except`/`Option`: a raised
  `ValueError` at construction is `Except.error msg`, a raised
  `ZeroDivisionError` in `valor_parcela` is `none`.
* `f-string` interpolation of `round(v, 2)` is modelled by `reprRound2`:
  round half-to-even at two decimals (Python's `round`) and print the
  result the way `repr` prints such a float — integer part, a point, then
  the fractional digits with trailing zeros stripped but at least one
  digit shown.
-/

/-- A calendar date: year, month (1–12), day (1–31). -/
structure Date where
  year : Nat
  month : Nat
  day : Nat
deriving DecidableEq, Repr

/-- Number of days in a month, with the Gregorian leap-year rule
(as implemented by Python's `datetime`/`calendar`). -/
def diasNoMes (ano mes : Nat) : Nat :=
  if mes = 2 then
    if ano % 4 = 0 ∧ (ano % 100 ≠ 0 ∨ ano % 400 = 0) then 29 else 28
  else if mes = 4 ∨ mes = 6 ∨ mes = 9 ∨ mes = 11 then 30
  else 31

/-- Modelled from the spec: `dateutil.relativedelta(months=1)` addition
(the library is not part of the repository).  Advance the month by one,
wrapping December into January of the next year, and clamp the day of
month to the length of the target month. -/
def addOneMonth (d : Date) : Date :=
  if d.month = 12 then
    ⟨d.year + 1, 1, min d.day (diasNoMes (d.year + 1) 1)⟩
  else
    ⟨d.year, d.month + 1, min d.day (diasNoMes d.year (d.month + 1))⟩

/-- Split a character list on the slash character (the separator of the
`%d/%m/%Y` pattern); mirrors `str.split("/")` semantics. -/
def splitOnSlash : List Char → List (List Char)
  | [] => [[]]
  | c :: rest =>
    if c = '/' then [] :: splitOnSlash rest
    else
      match splitOnSlash rest with
      | g :: gs => (c :: g) :: gs
      | [] => [[c]]

/-- Numeric value of a decimal digit character. -/
def digitVal (c : Char) : Nat := c.toNat - 48

/-- The `%d` field of `strptime`: one or two digits, value 1–31
(CPython regex `3[01]|[12]\d|0[1-9]|[1-9]`). -/
def dayAlt : List Char → Option Nat
  | [a] => if a.isDigit ∧ a ≠ '0' then some (digitVal a) else none
  | [a, b] =>
    if a.isDigit ∧ b.isDigit then
      let v := digitVal a * 10 + digitVal b
      if 1 ≤ v ∧ v ≤ 31 then some v else none
    else none
  | _ => none

/-- The `%m` field of `strptime`: one or two digits, value 1–12
(CPython regex `1[0-2]|0[1-9]|[1-9]`). -/
def monthAlt : List Char → Option Nat
  | [a] => if a.isDigit ∧ a ≠ '0' then some (digitVal a) else none
  | [a, b] =>
    if a.isDigit ∧ b.isDigit then
      let v := digitVal a * 10 + digitVal b
      if 1 ≤ v ∧ v ≤ 12 then some v else none
    else none
  | _ => none

/-- The `%Y` field of `strptime`: exactly four digits (CPython regex
`\d\d\d\d`). -/
def yearAlt : List Char → Option Nat
  | [a, b, c, d] =>
    if a.isDigit ∧ b.isDigit ∧ c.isDigit ∧ d.isDigit then
      some (digitVal a * 1000 + digitVal b * 100 + digitVal c * 10 + digitVal d)
    else none
  | _ => none

/-- Model of `datetime.strptime(data_str, "%d/%m/%Y")`: `some` of the parsed
date on success, `none` when CPython would raise `ValueError` (pattern
mismatch, year 0, or day out of range for the month). -/
def validar_data_inicial (s : String) : Option Date :=
  match splitOnSlash s.data with
  | [a, b, c] =>
    match dayAlt a, monthAlt b, yearAlt c with
    | some dd, some mm, some yy =>
      if 1 ≤ yy ∧ dd ≤ diasNoMes yy mm then some ⟨yy, mm, dd⟩ else none
    | _, _, _ => none
  | _ => none

/-- Zero-pad a natural to two digits, as `%d`/`%m` do in `strftime`. -/
def pad2 (n : Nat) : String :=
  if n < 10 then "0" ++ Nat.repr n else Nat.repr n

/-- Model of `datetime.strftime("%d/%m/%Y")`. -/
def strftimeDMY (d : Date) : String :=
  pad2 d.day ++ "/" ++ pad2 d.month ++ "/" ++ Nat.repr d.year

/-- Round a rational to the nearest integer, ties to even —
the rounding used by Python's built-in `round`. -/
def halfEven (q : ℚ) : ℤ :=
  let f := ⌊q⌋
  if q - f < 1 / 2 then f
  else if q - f > 1 / 2 then f + 1
  else if f % 2 = 0 then f else f + 1

/-- Render the rational `k / 100` the way Python's `repr` renders the float
`round(v, 2)`: optional sign, integer part, a decimal point, then the cents
with trailing zeros stripped but at least one digit. -/
def reprCent (k : ℤ) : String :=
  (if k < 0 then "-" else "") ++ Nat.repr (k.natAbs / 100) ++ "." ++
    (if k.natAbs % 100 = 0 then "0"
     else if k.natAbs % 100 % 10 = 0 then Nat.repr (k.natAbs % 100 / 10)
     else Nat.repr (k.natAbs % 100 / 10) ++ Nat.repr (k.natAbs % 100 % 10))

/-- Model of the f-string fragment `{round(valor_parcela, 2)}`. -/
def reprRound2 (v : ℚ) : String := reprCent (halfEven (v * 100))

/-- The state of an `Emprestimo` instance after `__init__` finishes:
`self.formato` is the constant `"%d/%m/%Y"` (folded into the
strftime/strptime models), and the remaining attributes are the fields
below.  `valor_emprestimo` already includes the compound-interest
adjustment, which `__init__` performs in place. -/
structure Emprestimo where
  valor_emprestimo : ℚ
  tempo_anos : ℤ
  data_inicial_datetime : Date
  taxa_juros : Option ℚ
deriving DecidableEq, Repr

/-- Python truthiness of the optional rate `self.taxa_juros`:
`None` and `0.0` are falsy, every other float is truthy. -/
def truthyRate : Option ℚ → Bool
  | none => false
  | some r => decide (r ≠ 0)

/-- Method `_calcula_valor_juros`: `self.valor_emprestimo *= (1 + taxa) ** tempo_anos`
(compound interest, applied once over the whole term).  Only ever called
when the rate is truthy. -/
def Emprestimo.calcula_valor_juros (e : Emprestimo) : Emprestimo :=
  match e.taxa_juros with
  | some r => { e with valor_emprestimo := e.valor_emprestimo * (1 + r) ^ e.tempo_anos }
  | none => e

/-- The constructor `Emprestimo.__init__`: validate the start date (raising
`ValueError` — modelled as `Except.error` — with the message built by
`_validar_data_inicial`), store the fields, and apply compound interest
when the rate is truthy. -/
def Emprestimo.init (valor_emprestimo : ℚ) (tempo_anos : ℤ)
    (data_inicial_str : String) (taxa_juros : Option ℚ) :
    Except String Emprestimo :=
  match validar_data_inicial data_inicial_str with
  | none =>
    Except.error ("Data inicial \"" ++ data_inicial_str ++
      "\" não está no formato correto \"dd/mm/aaaa\"")
  | some d =>
    let e : Emprestimo := ⟨valor_emprestimo, tempo_anos, d, taxa_juros⟩
    Except.ok (if truthyRate taxa_juros then e.calcula_valor_juros else e)

/-- Property `parcelas`: `self.tempo_anos * 12`. -/
def Emprestimo.parcelas (e : Emprestimo) : ℤ := e.tempo_anos * 12

/-- Property `valor_parcela`: `self.valor_emprestimo / self.parcelas`.
Python raises `ZeroDivisionError` when `parcelas == 0`, modelled as `none`. -/
def Emprestimo.valor_parcela (e : Emprestimo) : Option ℚ :=
  if e.parcelas = 0 then none
  else some (e.valor_emprestimo / (e.parcelas : ℚ))

/-- Method `_calcula_data_parcela_inicial`: the start date plus one month. -/
def Emprestimo.calcula_data_parcela_inicial (e : Emprestimo) : Date :=
  addOneMonth e.data_inicial_datetime

/-- Method `_formatar_parcela`: the line
`f"{data_str} Valor: {round(valor_parcela, 2)} {num_parcela}/{self.parcelas}"`. -/
def Emprestimo.formatar_parcela (e : Emprestimo) (data_parcela : Date)
    (valor_parcela : ℚ) (num_parcela : ℤ) : String :=
  strftimeDMY data_parcela ++ " " ++ "Valor: " ++ reprRound2 valor_parcela ++
    " " ++ Int.repr num_parcela ++ "/" ++ Int.repr e.parcelas

/-- Python's `range(a, b)` as a list of integers. -/
def pyRange (a b : ℤ) : List ℤ :=
  (List.range (b - a).toNat).map (fun (i : Nat) => a + (i : ℤ))

/-- The `for num_parcela in range(1, self.parcelas + 1)` loop of
`calcula_parcelas_vencimentos`: format the current installment, append it,
then advance `data_parcela_atual` by one month. -/
def loopParcelas (e : Emprestimo) (vp : ℚ) : Date → List ℤ → List String
  | _, [] => []
  | d, n :: ns => e.formatar_parcela d vp n :: loopParcelas e vp (addOneMonth d) ns

/-- Method `calcula_parcelas_vencimentos`: compute the first due date and the
per-installment amount (the latter raises — `none` — when `parcelas == 0`),
then run the generation loop. -/
def Emprestimo.calcula_parcelas_vencimentos (e : Emprestimo) : Option (List String) :=
  match e.valor_parcela with
  | none => none
  | some vp =>
    some (loopParcelas e vp e.calcula_data_parcela_inicial (pyRange 1 (e.parcelas + 1)))

/-- `calcula_parcelas_vencimentos` as an explicit state transformer on the
instance: every statement of the method body reads `self` but none assigns
to it, so the translation threads the instance through and returns it
alongside the result (the `none` result models the `ZeroDivisionError`
propagating out of the `self.valor_parcela` read). -/
def Emprestimo.calcula_parcelas_vencimentos_state (self : Emprestimo) :
    Emprestimo × Option (List String) :=
  match self.valor_parcela with
  | none => (self, none)
  | some vp =>
    (self,
      some (loopParcelas self vp self.calcula_data_parcela_inicial
        (pyRange 1 (self.parcelas + 1))))

/-- First line of the schedule of a constructed loan (helper used to state
closed concrete facts about the pipeline). -/
def firstLine (x : Except String Emprestimo) : Option String :=
  match x with
  | Except.error _ => none
  | Except.ok e =>
    match e.calcula_parcelas_vencimentos with
    | none => none
    | some l => l.head?

/-! ## Helper lemmas -/

lemma calcula_eq_loop (e : Emprestimo) (vp : ℚ) (hvp : e.valor_parcela = some vp) :
    e.calcula_parcelas_vencimentos =
      some (loopParcelas e vp (addOneMonth e.data_inicial_datetime)
        (pyRange 1 (e.parcelas + 1))) := by
  unfold Emprestimo.calcula_parcelas_vencimentos Emprestimo.calcula_data_parcela_inicial
  rw [hvp]

lemma loopParcelas_length (e : Emprestimo) (vp : ℚ) :
    ∀ (ns : List ℤ) (d : Date), (loopParcelas e vp d ns).length = ns.length
  | [], _ => rfl
  | n :: ns, d => by
    simp [loopParcelas, loopParcelas_length e vp ns (addOneMonth d)]

lemma loopParcelas_getD (e : Emprestimo) (vp : ℚ) :
    ∀ (ns : List ℤ) (d : Date) (i : Nat), i < ns.length →
      (loopParcelas e vp d ns).getD i "" =
        e.formatar_parcela (addOneMonth^[i] d) vp (ns.getD i 0)
  | [], _, i, hi => absurd hi (by simp)
  | n :: ns, d, 0, _ => by
    simp [loopParcelas]
  | n :: ns, d, i + 1, hi => by
    have ih := loopParcelas_getD e vp ns (addOneMonth d) i (by simpa using hi)
    show (e.formatar_parcela d vp n :: loopParcelas e vp (addOneMonth d) ns).getD (i + 1) "" = _
    rw [List.getD_cons_succ, List.getD_cons_succ, ih, Function.iterate_succ_apply]

lemma pyRange_length (a b : ℤ) : (pyRange a b).length = (b - a).toNat := by
  unfold pyRange
  rw [List.length_map, List.length_range]

lemma pyRange_getD (a b : ℤ) (i : Nat) (h : i < (b - a).toNat) :
    (pyRange a b).getD i 0 = a + (i : ℤ) := by
  unfold pyRange
  rw [List.getD_eq_getElem?_getD, List.getElem?_map, List.getElem?_range h]
  rfl

lemma schedule_getD (e : Emprestimo) (vp : ℚ) (l : List String)
    (hvp : e.valor_parcela = some vp)
    (hl : e.calcula_parcelas_vencimentos = some l)
    (i : Nat) (hi : i < l.length) :
    l.getD i "" =
      e.formatar_parcela (addOneMonth^[i + 1] e.data_inicial_datetime) vp (1 + (i : ℤ)) := by
  rw [calcula_eq_loop e vp hvp] at hl
  injection hl with hl
  subst hl
  rw [loopParcelas_getD e vp _ _ i (by rwa [loopParcelas_length] at hi)]
  rw [pyRange_getD 1 _ i (by rwa [loopParcelas_length, pyRange_length] at hi)]
  rw [Function.iterate_succ_apply]

lemma halfEven_intCast (n : ℤ) : halfEven (n : ℚ) = n := by
  unfold halfEven
  norm_num [Int.floor_intCast]

lemma repr_length_of_lt_ten (n : Nat) (h : n < 10) : (Nat.repr n).length = 1 := by
  interval_cases n <;> rfl

/-! ## Concrete instances used by the witnesses -/

/-- A concrete loan: principal 1200, one year, starting 31/01/2025, no rate
(the month-end start exercises the clamping path). -/
def loanW : Emprestimo := ⟨1200, 1, ⟨2025, 1, 31⟩, none⟩

/-- The schedule of `loanW`. -/
def scheduleW : List String := loanW.calcula_parcelas_vencimentos.getD []

/-! ## Claims -/

/-- C1: for every validly constructed loan with positive term, the schedule
entry at position `i` is the installment formatted at due date
`addOneMonth^[i + 1] startDate` — so the first due date is one calendar
month after the start date and each next one is one calendar month after
the previous — where adding one month preserves the day of month clamped
to the target month's length (in particular 31/01/2025 advances to
28/02/2025). -/
theorem C1_monthly_due_dates (e : Emprestimo) (vp : ℚ) (l : List String)
    (ht : 0 < e.tempo_anos)
    (hvp : e.valor_parcela = some vp)
    (hl : e.calcula_parcelas_vencimentos = some l) :
    (∀ i : Nat, i < l.length →
        l.getD i "" =
          e.formatar_parcela (addOneMonth^[i + 1] e.data_inicial_datetime) vp (1 + (i : ℤ)))
    ∧ (∀ d : Date,
        (addOneMonth d).day =
            min d.day (diasNoMes (addOneMonth d).year (addOneMonth d).month)
          ∧ (addOneMonth d).month = (if d.month = 12 then 1 else d.month + 1)
          ∧ (addOneMonth d).year = (if d.month = 12 then d.year + 1 else d.year))
    ∧ addOneMonth ⟨2025, 1, 31⟩ = ⟨2025, 2, 28⟩ := by
  refine ⟨fun i hi => schedule_getD e vp l hvp hl i hi, ?_, by decide⟩
  intro d
  unfold addOneMonth
  by_cases h : d.month = 12 <;> simp [h]

/-- C1 witness: for the concrete loan `loanW` the schedule's first entry is
the installment due one month after the start date, and the month-end
example clamps as claimed. -/
theorem C1_monthly_due_dates_witness :
    scheduleW.getD 0 "" =
        loanW.formatar_parcela (addOneMonth^[0 + 1] loanW.data_inicial_datetime)
          (1200 / 12) (1 + ((0 : Nat) : ℤ))
    ∧ addOneMonth ⟨2025, 1, 31⟩ = ⟨2025, 2, 28⟩ := by
  have h := C1_monthly_due_dates loanW (1200 / 12) scheduleW (by decide)
    (by norm_num [loanW, Emprestimo.valor_parcela, Emprestimo.parcelas]) rfl
  exact ⟨h.1 0 (by decide), h.2.2⟩

/-- C3: for every validly constructed loan with positive term, the schedule
has exactly `tempo_anos * 12` entries, and the entry at position `i` is the
installment numbered `1 + i` — the indices run 1, 2, …, `tempo_anos * 12`
in ascending order. -/
theorem C3_schedule_length (e : Emprestimo) (vp : ℚ) (l : List String)
    (ht : 0 < e.tempo_anos)
    (hvp : e.valor_parcela = some vp)
    (hl : e.calcula_parcelas_vencimentos = some l) :
    (l.length : ℤ) = e.tempo_anos * 12
    ∧ (∀ i : Nat, i < l.length →
        l.getD i "" =
          e.formatar_parcela (addOneMonth^[i + 1] e.data_inicial_datetime) vp (1 + (i : ℤ))) := by
  refine ⟨?_, fun i hi => schedule_getD e vp l hvp hl i hi⟩
  rw [calcula_eq_loop e vp hvp] at hl
  injection hl with hl
  subst hl
  rw [loopParcelas_length, pyRange_length]
  simp only [Emprestimo.parcelas]
  omega

/-- C3 witness: the concrete loan `loanW` has a 12-entry schedule. -/
theorem C3_schedule_length_witness :
    ((scheduleW.length : ℤ) = loanW.tempo_anos * 12) :=
  (C3_schedule_length loanW (1200 / 12) scheduleW (by decide)
    (by norm_num [loanW, Emprestimo.valor_parcela, Emprestimo.parcelas]) rfl).1

/-- C7: `valor_parcela` returns `valor_emprestimo / (tempo_anos * 12)`
whenever the term is non-zero, and raises `ZeroDivisionError` (modelled as
`none`) exactly when the term is zero. -/
theorem C7_valor_parcela (e : Emprestimo) :
    (e.tempo_anos = 0 → e.valor_parcela = none)
    ∧ (e.tempo_anos ≠ 0 →
        e.valor_parcela = some (e.valor_emprestimo / ((e.tempo_anos * 12 : ℤ) : ℚ))) := by
  unfold Emprestimo.valor_parcela Emprestimo.parcelas
  constructor <;> intro h
  · simp [h]
  · have h12 : e.tempo_anos * 12 ≠ 0 := by omega
    simp [h12]

/-- C7 witness: the concrete loan `loanW` (term 1 year) has a defined
per-installment amount equal to its principal divided by 12 installments. -/
theorem C7_valor_parcela_witness :
    loanW.valor_parcela =
      some (loanW.valor_emprestimo / ((loanW.tempo_anos * 12 : ℤ) : ℚ)) :=
  (C7_valor_parcela loanW).2 (by decide)

/-- C9: `calcula_parcelas_vencimentos` leaves the instance unchanged (no
statement of the method assigns to `self`), a second call on the resulting
state returns the same list as the first, and the state-threaded version
agrees with the direct function. -/
theorem C9_idempotent (e : Emprestimo) :
    e.calcula_parcelas_vencimentos_state.1 = e
    ∧ e.calcula_parcelas_vencimentos_state.1.calcula_parcelas_vencimentos_state.2
        = e.calcula_parcelas_vencimentos_state.2
    ∧ e.calcula_parcelas_vencimentos_state.2 = e.calcula_parcelas_vencimentos := by
  unfold Emprestimo.calcula_parcelas_vencimentos_state Emprestimo.calcula_parcelas_vencimentos
  cases h : e.valor_parcela <;> simp [h]

/-- C10: with a zero term `calcula_parcelas_vencimentos` raises
`ZeroDivisionError` (modelled as `none`) because the installment amount is
computed before the loop, while with a negative term it returns the empty
list without error. -/
theorem C10_degenerate_terms (e : Emprestimo) :
    (e.tempo_anos = 0 → e.calcula_parcelas_vencimentos = none)
    ∧ (e.tempo_anos < 0 → e.calcula_parcelas_vencimentos = some []) := by
  constructor <;> intro h
  · have hp : e.parcelas = 0 := by simp [Emprestimo.parcelas, h]
    simp [Emprestimo.calcula_parcelas_vencimentos, Emprestimo.valor_parcela, hp]
  · have hp : e.parcelas ≠ 0 := by simp [Emprestimo.parcelas]; omega
    have hvp : e.valor_parcela = some (e.valor_emprestimo / (e.parcelas : ℚ)) := by
      simp [Emprestimo.valor_parcela, hp]
    rw [calcula_eq_loop e _ hvp]
    have hr : pyRange 1 (e.parcelas + 1) = [] := by
      unfold pyRange
      have h0 : (e.parcelas + 1 - 1).toNat = 0 := by
        simp only [Emprestimo.parcelas]
        omega
      rw [h0]
      rfl
    rw [hr]
    rfl

/-- C10 witness: a zero-term loan errors; a negative-term loan yields the
empty schedule. -/
theorem C10_degenerate_terms_witness :
    Emprestimo.calcula_parcelas_vencimentos ⟨100, 0, ⟨2004, 2, 10⟩, none⟩ = none
    ∧ Emprestimo.calcula_parcelas_vencimentos ⟨100, -1, ⟨2004, 2, 10⟩, none⟩ = some [] :=
  ⟨(C10_degenerate_terms ⟨100, 0, ⟨2004, 2, 10⟩, none⟩).1 rfl,
   (C10_degenerate_terms ⟨100, -1, ⟨2004, 2, 10⟩, none⟩).2 (by decide)⟩

/-- Helper: `firstLine` of a successfully constructed loan whose schedule is
known is the schedule's first element. -/
lemma firstLine_ok (e : Emprestimo) (l : List String) (x : Except String Emprestimo)
    (hx : x = Except.ok e) (hl : e.calcula_parcelas_vencimentos = some l) :
    firstLine x = l.head? := by
  subst hx
  show (match e.calcula_parcelas_vencimentos with
        | none => none
        | some l => l.head?) = l.head?
  rw [hl]

/-- C2: construction with a parseable start date succeeds and stores as
adjusted principal `P * (1 + r) ^ t` when a non-zero rate `r` is supplied,
and exactly `P` when the rate is zero or omitted. -/
theorem C2_compound_interest (P : ℚ) (t : ℤ) (s : String) (d : Date) (taxa : Option ℚ)
    (hs : validar_data_inicial s = some d) :
    Emprestimo.init P t s taxa =
      Except.ok
        ⟨(match taxa with
          | none => P
          | some r => if r = 0 then P else P * (1 + r) ^ t),
         t, d, taxa⟩ := by
  unfold Emprestimo.init
  rw [hs]
  cases taxa with
  | none => simp [truthyRate]
  | some r =>
    by_cases hr : r = 0
    · simp [truthyRate, hr]
    · simp [truthyRate, hr, Emprestimo.calcula_valor_juros]

/-- C2 witness: principal 100000000, term 1 year, rate 0.1 stores
adjusted principal 110000000 (the spec's end-to-end example). -/
theorem C2_compound_interest_witness :
    Emprestimo.init 100000000 1 "10/02/2004" (some (1 / 10)) =
      Except.ok ⟨110000000, 1, ⟨2004, 2, 10⟩, some (1 / 10)⟩ := by
  rw [C2_compound_interest 100000000 1 "10/02/2004" ⟨2004, 2, 10⟩ (some (1 / 10)) (by decide)]
  norm_num

/-- C4: for every validly constructed loan with positive term, the sum of
the `parcelas` per-installment amounts equals the adjusted principal
exactly (in the exact rational model). -/
theorem C4_sum_of_installments (e : Emprestimo) (vp : ℚ)
    (ht : 0 < e.tempo_anos)
    (hvp : e.valor_parcela = some vp) :
    (List.replicate e.parcelas.toNat vp).sum = e.valor_emprestimo := by
  have hp : e.parcelas ≠ 0 := by
    simp only [Emprestimo.parcelas]
    omega
  rw [Emprestimo.valor_parcela, if_neg hp] at hvp
  injection hvp with hvp
  subst hvp
  have hple : (0 : ℤ) ≤ e.parcelas := by
    simp only [Emprestimo.parcelas]
    omega
  have hcast : ((e.parcelas.toNat : ℕ) : ℚ) = (e.parcelas : ℚ) := by
    exact_mod_cast congrArg (Int.cast : ℤ → ℚ) (Int.toNat_of_nonneg hple)
  rw [List.sum_replicate, nsmul_eq_mul, hcast, mul_comm, div_mul_cancel₀]
  exact Int.cast_ne_zero.mpr hp

/-- C4 witness: the twelve installments of the concrete loan `loanW` sum to
its (unadjusted) principal. -/
theorem C4_sum_of_installments_witness :
    (List.replicate loanW.parcelas.toNat ((1200 : ℚ) / 12)).sum = loanW.valor_emprestimo :=
  C4_sum_of_installments loanW (1200 / 12) (by decide)
    (by norm_num [loanW, Emprestimo.valor_parcela, Emprestimo.parcelas])

/-- C5: when the start-date string does not parse against the
day/month/year pattern, construction fails with a `ValueError` whose
message contains the offending string and the pattern text; when it
parses, construction succeeds.  `"2004-02-10"` and `"31/13/2004"` are
unparseable. -/
theorem C5_invalid_date_error (s : String) (P : ℚ) (t : ℤ) (taxa : Option ℚ) :
    (validar_data_inicial s = none →
        Emprestimo.init P t s taxa =
          Except.error ("Data inicial \"" ++ s ++
            "\" não está no formato correto \"dd/mm/aaaa\""))
    ∧ (∀ d : Date, validar_data_inicial s = some d →
        ∃ e : Emprestimo, Emprestimo.init P t s taxa = Except.ok e)
    ∧ validar_data_inicial "2004-02-10" = none
    ∧ validar_data_inicial "31/13/2004" = none := by
  refine ⟨?_, ?_, by decide, by decide⟩
  · intro h
    unfold Emprestimo.init
    rw [h]
  · intro d h
    unfold Emprestimo.init
    rw [h]
    exact ⟨_, rfl⟩

/-- C5 witness: constructing with `"2004-02-10"` fails with the message
echoing the offending string and the pattern text. -/
theorem C5_invalid_date_error_witness :
    Emprestimo.init 100 1 "2004-02-10" none =
      Except.error "Data inicial \"2004-02-10\" não está no formato correto \"dd/mm/aaaa\"" :=
  ((C5_invalid_date_error "2004-02-10" 100 1 none).1 (by decide)).trans
    (congrArg Except.error (by decide))

/-- Helper: the generation loop reads the instance only through
`parcelas`, so instances agreeing on it produce the same lines. -/
lemma loopParcelas_congr (e e' : Emprestimo) (hp : e.parcelas = e'.parcelas) (vp : ℚ) :
    ∀ (ns : List ℤ) (d : Date), loopParcelas e vp d ns = loopParcelas e' vp d ns
  | [], _ => rfl
  | n :: ns, d => by
    simp [loopParcelas, Emprestimo.formatar_parcela, hp,
      loopParcelas_congr e e' hp vp ns (addOneMonth d)]

/-- Helper: the schedule does not depend on the stored rate field. -/
lemma calcula_taxa_irrelevant (P : ℚ) (t : ℤ) (d : Date) (tx tx' : Option ℚ) :
    Emprestimo.calcula_parcelas_vencimentos ⟨P, t, d, tx⟩ =
      Emprestimo.calcula_parcelas_vencimentos ⟨P, t, d, tx'⟩ := by
  have hvp : (Emprestimo.mk P t d tx').valor_parcela =
      (Emprestimo.mk P t d tx).valor_parcela := rfl
  unfold Emprestimo.calcula_parcelas_vencimentos
  rw [hvp]
  cases hS : (Emprestimo.mk P t d tx).valor_parcela with
  | none => simp only [hS]
  | some vp =>
    simp only [hS]
    exact congrArg some
      (loopParcelas_congr ⟨P, t, d, tx⟩ ⟨P, t, d, tx'⟩ rfl vp
        (pyRange 1 ((Emprestimo.mk P t d tx).parcelas + 1))
        (Emprestimo.mk P t d tx).calcula_data_parcela_inicial)

/-- C6: constructing with rate `0.0` and constructing with the rate omitted
both succeed on the same parseable start date and produce the same
adjusted principal and the same schedule. -/
theorem C6_zero_rate_equivalence (P : ℚ) (t : ℤ) (s : String) (d : Date)
    (hs : validar_data_inicial s = some d) :
    ∃ e0 e1 : Emprestimo,
      Emprestimo.init P t s (some 0) = Except.ok e0
      ∧ Emprestimo.init P t s none = Except.ok e1
      ∧ e0.valor_emprestimo = e1.valor_emprestimo
      ∧ e0.calcula_parcelas_vencimentos = e1.calcula_parcelas_vencimentos := by
  refine ⟨⟨P, t, d, some 0⟩, ⟨P, t, d, none⟩, ?_, ?_, rfl,
    calcula_taxa_irrelevant P t d (some 0) none⟩
  · unfold Emprestimo.init
    rw [hs]
    norm_num [truthyRate]
  · unfold Emprestimo.init
    rw [hs]
    simp [truthyRate]

/-- C6 witness: with principal 100, term 1 and start date 10/02/2004, rate
`0.0` and omitted rate give equal adjusted principals and equal schedules. -/
theorem C6_zero_rate_equivalence_witness :
    (Emprestimo.init 100 1 "10/02/2004" (some 0)).map Emprestimo.valor_emprestimo =
        (Emprestimo.init 100 1 "10/02/2004" none).map Emprestimo.valor_emprestimo
    ∧ (Emprestimo.init 100 1 "10/02/2004" (some 0)).map Emprestimo.calcula_parcelas_vencimentos =
        (Emprestimo.init 100 1 "10/02/2004" none).map Emprestimo.calcula_parcelas_vencimentos := by
  obtain ⟨e0, e1, h0, h1, hv, hc⟩ :=
    C6_zero_rate_equivalence 100 1 "10/02/2004" ⟨2004, 2, 10⟩ (by decide)
  rw [h0, h1]
  exact ⟨by simp [Except.map, hv], by simp [Except.map, hc]⟩

/-- C8 (amended): each formatted line is
`"<dueDate> Valor: <amount> <index>/<total>"` with the due date rendered as
`dd/mm/yyyy`, but the amount is rendered as Python renders the float
`round(amount, 2)`: at most two decimal digits, with trailing zeros
dropped (never padded), so an amount of 100 renders as `"100.0"`, not
`"100.00"`. -/
theorem C8_formatting (e : Emprestimo) (d : Date) (v : ℚ) (n : ℤ) :
    e.formatar_parcela d v n =
        strftimeDMY d ++ " " ++ "Valor: " ++ reprRound2 v ++ " " ++
          Int.repr n ++ "/" ++ Int.repr e.parcelas
    ∧ strftimeDMY d = pad2 d.day ++ "/" ++ pad2 d.month ++ "/" ++ Nat.repr d.year
    ∧ reprRound2 100 = "100.0"
    ∧ (∀ w : ℚ, ∃ ip fp : String,
        reprRound2 w = ip ++ "." ++ fp ∧ (fp.length = 1 ∨ fp.length = 2)) := by
  refine ⟨rfl, rfl, ?_, ?_⟩
  · have h1 : ((100 : ℚ) * 100) = ((10000 : ℤ) : ℚ) := by norm_num
    rw [reprRound2, h1, halfEven_intCast]
    decide
  · intro w
    unfold reprRound2
    generalize halfEven (w * 100) = k
    have h100 : k.natAbs % 100 < 100 := Nat.mod_lt _ (by norm_num)
    refine ⟨(if k < 0 then "-" else "") ++ Nat.repr (k.natAbs / 100), ?_⟩
    by_cases h0 : k.natAbs % 100 = 0
    · refine ⟨"0", ?_, Or.inl rfl⟩
      unfold reprCent
      rw [if_pos h0]
    · by_cases h10 : k.natAbs % 100 % 10 = 0
      · refine ⟨Nat.repr (k.natAbs % 100 / 10), ?_, Or.inl ?_⟩
        · unfold reprCent
          rw [if_neg h0, if_pos h10]
        · exact repr_length_of_lt_ten _ (by omega)
      · refine ⟨Nat.repr (k.natAbs % 100 / 10) ++ Nat.repr (k.natAbs % 100 % 10), ?_, Or.inr ?_⟩
        · unfold reprCent
          rw [if_neg h0, if_neg h10]
        · rw [String.length_append, repr_length_of_lt_ten _ (by omega),
            repr_length_of_lt_ten _ (by omega)]

/-- C8 counterexample: the claim as stated ("exactly two decimal digits")
fails — for principal 1200 over 1 year the installment amount is 100 and
the first formatted line reads `"... Valor: 100.0 1/12"`, which is not the
two-decimal rendering `"... Valor: 100.00 1/12"`. -/
theorem C8_formatting_counterexample :
    firstLine (Emprestimo.init 1200 1 "10/02/2004" none) =
        some "10/03/2004 Valor: 100.0 1/12"
    ∧ "10/03/2004 Valor: 100.0 1/12" ≠ "10/03/2004 Valor: 100.00 1/12" := by
  constructor
  · have hinit : Emprestimo.init 1200 1 "10/02/2004" none =
        Except.ok ⟨1200, 1, ⟨2004, 2, 10⟩, none⟩ := by
      unfold Emprestimo.init
      rw [show validar_data_inicial "10/02/2004" = some ⟨2004, 2, 10⟩ from by decide]
      rfl
    have hvp : (Emprestimo.mk 1200 1 ⟨2004, 2, 10⟩ none).valor_parcela = some (1200 / 12) := by
      norm_num [Emprestimo.valor_parcela, Emprestimo.parcelas]
    have hcal := calcula_eq_loop _ _ hvp
    rw [firstLine_ok _ _ _ hinit hcal]
    rw [show pyRange 1 ((Emprestimo.mk 1200 1 ⟨2004, 2, 10⟩ none).parcelas + 1) =
        [1, 2, 3, 4, 5, 6, 7, 8, 9, 10, 11, 12] from by decide]
    have hfmt : (Emprestimo.mk 1200 1 ⟨2004, 2, 10⟩ none).formatar_parcela
        ⟨2004, 3, 10⟩ (1200 / 12) 1 = "10/03/2004 Valor: 100.0 1/12" := by
      have hr : reprRound2 (1200 / 12) = "100.0" := by
        have h1 : ((1200 : ℚ) / 12) * 100 = ((10000 : ℤ) : ℚ) := by norm_num
        rw [reprRound2, h1, halfEven_intCast]
        decide
      unfold Emprestimo.formatar_parcela
      rw [hr]
      decide
    simp only [loopParcelas, List.head?_cons]
    rw [show addOneMonth ⟨2004, 2, 10⟩ = (⟨2004, 3, 10⟩ : Date) from by decide, hfmt]
  · decide
